import Mathlib

/-!
Shallow embedding of the conversation/chat orchestration core of the
todo-list backend: the bulk-operation guard and confirmation workflow of
src/backend/src/agent/runner.py, the conversation/message persistence
operations of src/backend/src/services/conversation_service.py, and the
title-derivation step of src/backend/src/chatkit/store.py.
-/

namespace TodoSpec

/-! ### A small regular-expression engine

detect_bulk_operation in runner.py applies Python re.search with patterns
built only from literal characters, whitespace classes (one or more of a
backslash-s), alternation of literal words, and dot-star (zero or more of
any character except a newline, since DOTALL is not set).  RE covers
exactly these constructs.  Matching is modelled by computing every suffix
remaining after a match of the regex at the head of the input; re.search
succeeds iff a match exists at some start position.
-/

inductive RE where
  | eps
  | cls (cs : List Char)
  | seq (r1 r2 : RE)
  | alt (r1 r2 : RE)
  | starCls (cs : List Char)
  | starAny
deriving Repr

/-- Suffixes remaining after zero or more characters of the class have
been consumed from the head of the input. -/
def starClsRem (cs : List Char) : List Char → List (List Char)
  | [] => [[]]
  | c :: s => (c :: s) :: (if cs.contains c then starClsRem cs s else [])

/-- Suffixes remaining after zero or more non-newline characters have
been consumed from the head of the input (Python dot-star). -/
def starAnyRem : List Char → List (List Char)
  | [] => [[]]
  | c :: s => (c :: s) :: (if c = '\n' then [] else starAnyRem s)

/-- All suffixes of the input that remain after some match of the regex
at the head of the input. -/
def matchRem : RE → List Char → List (List Char)
  | .eps, s => [s]
  | .cls cs, s =>
      match s with
      | [] => []
      | c :: s2 => if cs.contains c then [s2] else []
  | .seq r1 r2, s => (matchRem r1 s).flatMap (fun s2 => matchRem r2 s2)
  | .alt r1 r2, s => matchRem r1 s ++ matchRem r2 s
  | .starCls cs, s => starClsRem cs s
  | .starAny, s => starAnyRem s

/-- The regex matches some prefix of the input. -/
def matchesAt (r : RE) (s : List Char) : Bool :=
  !(matchRem r s).isEmpty

/-- Python re.search: the regex matches starting at some position. -/
def reSearch (r : RE) : List Char → Bool
  | [] => matchesAt r []
  | c :: s => matchesAt r (c :: s) || reSearch r s

/-- Regex of a literal word. -/
def word (w : String) : RE :=
  w.data.foldr (fun c r => RE.seq (RE.cls [c]) r) RE.eps

/-- Alternation of literal words, as in a Python group (a|b|c). -/
def words : List String → RE
  | [] => RE.cls []
  | [w] => word w
  | w :: ws => RE.alt (word w) (words ws)

/-- ASCII whitespace characters matched by a Python backslash-s. -/
def spaceChars : List Char := [' ', '\t', '\n', '\r', '\x0b', '\x0c']

/-- One or more whitespace characters (backslash-s followed by plus). -/
def sp : RE := RE.seq (RE.cls spaceChars) (RE.starCls spaceChars)

/-- Sequential composition of a list of regexes. -/
def seqs (rs : List RE) : RE := rs.foldr RE.seq RE.eps

/-- BULK_PATTERNS from runner.py: the five (pattern, action) pairs, in
source order. -/
def BULK_PATTERNS : List (RE × String) :=
  [ (seqs [word "delete", sp, words ["all", "every", "each"], sp,
           words ["task", "todo"]], "delete_all"),
    (seqs [words ["remove", "clear"], sp, words ["all", "every", "each"], sp,
           words ["task", "todo"]], "delete_all"),
    (seqs [word "complete", sp, words ["all", "every", "each"], sp,
           words ["task", "todo"]], "complete_all"),
    (seqs [word "mark", sp, words ["all", "every", "each"], sp,
           words ["task", "todo"], RE.starAny, words ["done", "complete"]],
     "complete_all"),
    (seqs [word "finish", sp, words ["all", "every", "each"], sp,
           words ["task", "todo"]], "complete_all") ]

/-- detect_bulk_operation from runner.py: lower-case the message, try the
patterns in order, return the action of the first pattern that matches
anywhere in the message.  Python str.lower is Unicode-aware; Char.toLower
lowers ASCII letters, which agrees on the ASCII pattern alphabet and on
every input considered here. -/
def detect_bulk_operation (message : String) : Option String :=
  let message_lower := message.data.map Char.toLower
  (BULK_PATTERNS.find? (fun p => reSearch p.1 message_lower)).map (·.2)

/-! ### Persistence model

Rows of the conversation and message tables of models.py, and the
operations of conversation_service.py, embedded over an explicit
in-memory database.  Timestamps are naturals (utc_now_naive is passed in
as a parameter), text is a list of characters, and the SQL queries become
filter, sort, take over the row lists. -/

structure Conversation where
  id : Nat
  user_id : String
  title : Option (List Char)
  created_at : Nat
  updated_at : Nat
deriving DecidableEq, Repr

structure Message where
  id : Nat
  conversation_id : Nat
  user_id : String
  role : String
  content : List Char
  created_at : Nat
deriving DecidableEq, Repr

structure DB where
  conversations : List Conversation
  messages : List Message
deriving DecidableEq, Repr

/-- ORDER BY created_at DESC, id DESC: m1 sorts no later than m2. -/
def newestFirst (m1 m2 : Message) : Prop :=
  m2.created_at < m1.created_at ∨ (m1.created_at = m2.created_at ∧ m2.id ≤ m1.id)

instance : DecidableRel newestFirst := fun m1 m2 =>
  inferInstanceAs (Decidable (Or _ _))

instance : IsTotal Message newestFirst :=
  ⟨fun m1 m2 => by unfold newestFirst; omega⟩

instance : IsTrans Message newestFirst :=
  ⟨fun m1 m2 m3 h1 h2 => by unfold newestFirst at *; omega⟩

/-- ORDER BY created_at ASC, id ASC: m1 sorts no later than m2. -/
def oldestFirst (m1 m2 : Message) : Prop :=
  m1.created_at < m2.created_at ∨ (m1.created_at = m2.created_at ∧ m1.id ≤ m2.id)

instance : DecidableRel oldestFirst := fun m1 m2 =>
  inferInstanceAs (Decidable (Or _ _))

instance : IsTotal Message oldestFirst :=
  ⟨fun m1 m2 => by unfold oldestFirst; omega⟩

instance : IsTrans Message oldestFirst :=
  ⟨fun m1 m2 m3 h1 h2 => by unfold oldestFirst at *; omega⟩

/-- Strict chronological order on messages by (created_at, id). -/
def chronLT (m1 m2 : Message) : Prop :=
  m1.created_at < m2.created_at ∨ (m1.created_at = m2.created_at ∧ m1.id < m2.id)

instance : DecidableRel chronLT := fun m1 m2 =>
  inferInstanceAs (Decidable (Or _ _))

/-- ORDER BY updated_at DESC on conversations. -/
def updatedDesc (c1 c2 : Conversation) : Prop :=
  c2.updated_at ≤ c1.updated_at

instance : DecidableRel updatedDesc := fun c1 c2 =>
  inferInstanceAs (Decidable (_ ≤ _))

instance : IsTotal Conversation updatedDesc :=
  ⟨fun c1 c2 => by unfold updatedDesc; omega⟩

instance : IsTrans Conversation updatedDesc :=
  ⟨fun c1 c2 c3 h1 h2 => by unfold updatedDesc at *; omega⟩

/-- list_recent_messages from conversation_service.py: filter by
(conversation_id, user_id), order newest first (created_at DESC, id
DESC), take the limit, then reverse to chronological order. -/
def list_recent_messages (db : DB) (conversation_id : Nat) (user_id : String)
    (limit : Nat) : List Message :=
  let msgs := db.messages.filter
    (fun m => m.conversation_id == conversation_id && m.user_id == user_id)
  ((List.insertionSort newestFirst msgs).take limit).reverse

/-- get_full_history from conversation_service.py: filter by
(conversation_id, user_id), order by created_at ASC, id ASC. -/
def get_full_history (db : DB) (conversation_id : Nat) (user_id : String) :
    List Message :=
  List.insertionSort oldestFirst (db.messages.filter
    (fun m => m.conversation_id == conversation_id && m.user_id == user_id))

/-- get_conversation_by_id from conversation_service.py: select the
conversation whose id and user_id both match, or none. -/
def get_conversation_by_id (db : DB) (conversation_id : Nat)
    (user_id : String) : Option Conversation :=
  db.conversations.find? (fun c => c.id == conversation_id && c.user_id == user_id)

/-- delete_conversation from conversation_service.py: delete the messages
matching (conversation_id, user_id), then the conversation matching (id,
user_id); report whether a conversation row was deleted. -/
def delete_conversation (db : DB) (conversation_id : Nat) (user_id : String) :
    Bool × DB :=
  let messages2 := db.messages.filter
    (fun m => !(m.conversation_id == conversation_id && m.user_id == user_id))
  let deleted := db.conversations.any
    (fun c => c.id == conversation_id && c.user_id == user_id)
  let convs2 := db.conversations.filter
    (fun c => !(c.id == conversation_id && c.user_id == user_id))
  (deleted, ⟨convs2, messages2⟩)

/-- append_message from conversation_service.py: truncate content beyond
4000 characters, insert the message (user_id denormalized from the
conversation), and bump the conversation row's updated_at.  now is the
utc_now_naive timestamp and new_id the id assigned by the database. -/
def append_message (db : DB) (conversation : Conversation) (role : String)
    (content : List Char) (now : Nat) (new_id : Nat) : Message × DB :=
  let content2 := if content.length > 4000 then content.take 4000 else content
  let message : Message :=
    ⟨new_id, conversation.id, conversation.user_id, role, content2, now⟩
  let convs2 := db.conversations.map
    (fun c => if c.id == conversation.id then { c with updated_at := now } else c)
  (message, ⟨convs2, db.messages ++ [message]⟩)

/-- get_or_create_conversation from conversation_service.py: the most
recently updated conversation of the user, or a fresh conversation with
no title. -/
def get_or_create_conversation (db : DB) (user_id : String) (now fresh_id : Nat) :
    Conversation × DB :=
  let mine := db.conversations.filter (fun c => c.user_id == user_id)
  match (List.insertionSort updatedDesc mine).head? with
  | some c => (c, db)
  | none =>
      let c : Conversation := ⟨fresh_id, user_id, none, now, now⟩
      (c, ⟨db.conversations ++ [c], db.messages⟩)

/-- Python truthiness of an optional title: None and the empty string are
falsy. -/
def titleFalsy : Option (List Char) → Bool
  | none => true
  | some t => t.isEmpty

/-- add_thread_item from chatkit/store.py, from the access check on: if
the conversation exists and belongs to the user, insert the message, and
if the conversation has no (falsy) title and the item role is user, set
the title to the first 100 characters of the content; bump updated_at.
Thread-id resolution above the access check is outside this model. -/
def add_thread_item_core (db : DB) (conv_id : Nat) (user_id : String)
    (role : String) (content : List Char) (now new_id : Nat) : DB :=
  match db.conversations.find? (fun c => c.id == conv_id) with
  | none => db
  | some conversation =>
      if conversation.user_id ≠ user_id then db
      else
        let message : Message := ⟨new_id, conv_id, user_id, role, content, now⟩
        let title2 := if titleFalsy conversation.title ∧ role = "user"
                      then some (content.take 100) else conversation.title
        let convs2 := db.conversations.map
          (fun c => if c.id == conv_id
                    then { c with title := title2, updated_at := now } else c)
        ⟨convs2, db.messages ++ [message]⟩

/-! ### The agent orchestrator

run_agent from runner.py, embedded as a pure function.  The external
agent runtime (MCP connection plus Runner.run) is a parameter: for each
of the three invocation sites (the pre-confirmation list estimate, the
confirmed bulk execution, the normal turn) the oracle either raises (an
exception message) or returns the extracted response text.  The
module-level _pending_confirmations dict is threaded explicitly, the
token from secrets.token_urlsafe and the clock are parameters, and the
result records which runtime invocations the turn issued. -/

structure ThinkingStep where
  type : String
  content : String
deriving DecidableEq, Repr

structure ConfirmationRequest where
  action : String
  message : String
  affected_items : List String
  confirm_token : String
deriving DecidableEq, Repr

structure AgentResponse where
  response : String
  tool_calls : List String
  thinking_steps : List ThinkingStep
  confirmation_required : Option ConfirmationRequest
  error : Option String
deriving DecidableEq, Repr

structure PendingConfirmation where
  user_id : String
  action : String
  created_at : Nat
deriving DecidableEq, Repr

/-- The _pending_confirmations dict, as an association list. -/
abbrev Store := List (String × PendingConfirmation)

/-- The three Runner.run invocation sites of runner.py. -/
inductive RuntimeCall where
  | listCall
  | bulkCall (instruction : String)
  | normalCall (input : String)
deriving DecidableEq, Repr

/-- The external agent runtime: raises or returns response text. -/
abbrev Oracle := RuntimeCall → Except String String

/-- The value of one run_agent call: the AgentResponse, the pending
confirmation store afterwards, and the runtime invocations issued. -/
structure TurnResult where
  response : AgentResponse
  store : Store
  calls : List RuntimeCall
deriving DecidableEq, Repr

/-- Python truthiness of the optional confirm_token string. -/
def truthy : Option String → Bool
  | none => false
  | some s => !(s == "")

/-- Dict lookup in the pending-confirmation store. -/
def lookupToken (store : Store) (t : String) : Option PendingConfirmation :=
  (store.find? (fun p => p.1 == t)).map (·.2)

/-- Dict pop: remove the key from the store. -/
def removeToken (store : Store) (t : String) : Store :=
  store.filter (fun p => !(p.1 == t))

/-- Dict assignment: bind the key, replacing any previous binding. -/
def insertToken (store : Store) (t : String) (c : PendingConfirmation) : Store :=
  (t, c) :: removeToken store t

/-- The truthy-and-member test guarding the redemption branch. -/
def pendingLookup (store : Store) (confirm_token : Option String) :
    Option (String × PendingConfirmation) :=
  match confirm_token with
  | none => none
  | some t =>
      if t == "" then none
      else (lookupToken store t).map (fun c => (t, c))

/-- Pattern at the head of the input. -/
def leadsWith : List Char → List Char → Bool
  | [], _ => true
  | _ :: _, [] => false
  | p :: ps, c :: cs => p == c && leadsWith ps cs

/-- Substring containment (Python in on strings). -/
def containsSub (pat : List Char) : List Char → Bool
  | [] => leadsWith pat []
  | c :: cs => leadsWith pat (c :: cs) || containsSub pat cs

/-- The affected-count estimate of the guard branch: 0 on a runtime
exception, 0 when the lowered output contains "no tasks", else the
default estimate 5. -/
def listEstimate (listResult : Except String String) : Nat :=
  match listResult with
  | .error _ => 0
  | .ok out =>
      if containsSub "no tasks".data (out.data.map Char.toLower) then 0 else 5

/-- Content of the initial analyzing step (first 100 characters of long
messages, with a trailing ellipsis). -/
def analyzingContent (user_message : String) : String :=
  if user_message.length > 100 then
    "Analyzing user request: \"" ++ String.mk (user_message.data.take 100) ++ "...\""
  else
    "Analyzing user request: \"" ++ user_message ++ "\""

/-- build_conversation_context from prompts.py: the last max_messages
(role, content) pairs joined as role: content lines; all of them when
max_messages is 0, since Python messages[-0:] is the whole list. -/
def build_conversation_context (messages : List (String × String))
    (max_messages : Nat) : String :=
  if messages.isEmpty then ""
  else
    let window := if max_messages = 0 then messages
                  else messages.drop (messages.length - max_messages)
    String.intercalate "\n" (window.map (fun m => m.1 ++ ": " ++ m.2))

/-- The guard branch of run_agent: a bulk action was detected and no
truthy confirm_token supplied.  Issues the list-estimate call; on a zero
estimate answers that there is nothing to act on, otherwise mints the
fresh token, records it in the store, and returns the confirmation
request without executing anything. -/
def guardTurn (oracle : Oracle) (store : Store) (user_id : String)
    (action : String) (fresh_token : String) (now : Nat)
    (steps0 : List ThinkingStep) : TurnResult :=
  let steps1 := steps0 ++
    [⟨"clarifying", "Detected bulk operation: " ++ action ++ ". Requesting confirmation."⟩]
  let total := listEstimate (oracle .listCall)
  if total = 0 then
    { response :=
        { response := "You don't have any tasks to perform this action on.",
          tool_calls := [], thinking_steps := steps1,
          confirmation_required := none, error := none },
      store := store, calls := [.listCall] }
  else
    let store2 := insertToken store fresh_token ⟨user_id, action, now⟩
    let action_msg := if action == "delete_all" then "delete all" else "mark all as complete"
    { response :=
        { response := "You're about to " ++ action_msg ++
            " your tasks. Please confirm this action.",
          tool_calls := [], thinking_steps := steps1,
          confirmation_required := some
            ⟨action, "Are you sure you want to " ++ action_msg ++ "?", [], fresh_token⟩,
          error := none },
      store := store2, calls := [.listCall] }

/-- The broad natural-language instruction handed to the runtime for a
confirmed bulk action. -/
def bulkInstruction (action user_id : String) : String :=
  if action == "delete_all" then
    "Delete all tasks for user_id: " ++ user_id ++
      ". First list all tasks, then delete each one."
  else
    "Mark all incomplete tasks as complete for user_id: " ++ user_id ++
      ". First list incomplete tasks, then complete each one."

/-- The input string of the normal-execution runtime call: the context
window prefixed when non-empty. -/
def normalInput (user_message : String)
    (conversation_history : List (String × String))
    (max_context_messages : Nat) : String :=
  let context_str := build_conversation_context conversation_history max_context_messages
  if context_str ≠ "" then
    "Previous conversation:\n" ++ context_str ++ "\n\nUser: " ++ user_message
  else user_message

/-- The redemption branch of run_agent: the supplied token is in the
store.  The token is popped first; a user mismatch yields the invalid
token response (with no thinking steps), otherwise the bulk instruction
is handed to the runtime. -/
def redeemTurn (oracle : Oracle) (store : Store) (user_id token : String)
    (conf : PendingConfirmation) (steps0 : List ThinkingStep) : TurnResult :=
  let store2 := removeToken store token
  if conf.user_id ≠ user_id then
    { response :=
        { response := "Invalid confirmation token.", tool_calls := [],
          thinking_steps := [], confirmation_required := none,
          error := some "Token user mismatch" },
      store := store2, calls := [] }
  else
    let steps1 := steps0 ++
      [⟨"processing", "Executing confirmed bulk operation: " ++ conf.action⟩]
    let instruction := bulkInstruction conf.action user_id
    match oracle (.bulkCall instruction) with
    | .ok out =>
        { response :=
            { response := out, tool_calls := [], thinking_steps := steps1,
              confirmation_required := none, error := none },
          store := store2, calls := [.bulkCall instruction] }
    | .error e =>
        { response :=
            { response := "Failed to execute bulk operation. Please try again.",
              tool_calls := [], thinking_steps := steps1,
              confirmation_required := none, error := some e },
          store := store2, calls := [.bulkCall instruction] }

/-- The normal-execution branch of run_agent: build the context string
and full input, invoke the runtime; an exception is caught and converted
into the generic error response carrying the steps accumulated so far. -/
def normalTurn (oracle : Oracle) (store : Store) (user_message : String)
    (conversation_history : List (String × String))
    (max_context_messages : Nat) (steps0 : List ThinkingStep) : TurnResult :=
  let steps2 := steps0 ++
    [⟨"planning", "Connecting to MCP server and preparing agent"⟩,
     ⟨"processing", "MCP server connected, creating agent"⟩]
  let full_input := normalInput user_message conversation_history max_context_messages
  let steps3 := steps2 ++ [⟨"processing", "Running agent with user message"⟩]
  match oracle (.normalCall full_input) with
  | .ok content =>
      { response :=
          { response := content, tool_calls := [],
            thinking_steps := steps3 ++ [⟨"processing", "Agent completed execution"⟩],
            confirmation_required := none, error := none },
        store := store, calls := [.normalCall full_input] }
  | .error e =>
      { response :=
          { response := "I encountered an error processing your request. Please try again.",
            tool_calls := [], thinking_steps := steps3,
            confirmation_required := none, error := some e },
        store := store, calls := [.normalCall full_input] }

/-- run_agent from runner.py: the analyzing step, then the guard branch
when a bulk action is detected and no truthy token given, then the
redemption branch when the token is truthy and present in the store,
else the normal branch. -/
def run_agent (oracle : Oracle) (store : Store)
    (user_id user_message : String)
    (conversation_history : List (String × String))
    (confirm_token : Option String)
    (fresh_token : String) (now : Nat)
    (max_context_messages : Nat) : TurnResult :=
  let steps0 := [ThinkingStep.mk "analyzing" (analyzingContent user_message)]
  match detect_bulk_operation user_message, truthy confirm_token with
  | some action, false => guardTurn oracle store user_id action fresh_token now steps0
  | _, _ =>
      match pendingLookup store confirm_token with
      | some (token, conf) => redeemTurn oracle store user_id token conf steps0
      | none =>
          normalTurn oracle store user_message conversation_history
            max_context_messages steps0

/-! ### Branch lemmas for run_agent -/

/-- A popped token is no longer in the store. -/
theorem lookupToken_removeToken (store : Store) (t : String) :
    lookupToken (removeToken store t) t = none := by
  induction store with
  | nil => rfl
  | cons p rest ih =>
      by_cases h : p.1 == t
      · simp only [removeToken, List.filter_cons, h] at ih ⊢
        simpa using ih
      · simp only [removeToken, List.filter_cons, h] at ih ⊢
        simp [lookupToken, h]

/-- With a bulk action detected and no truthy token, run_agent is the
guard branch. -/
theorem run_agent_eq_guard {oracle : Oracle} {store : Store}
    {user_id user_message : String} {hist : List (String × String)}
    {confirm_token : Option String} {fresh : String} {now mc : Nat}
    {action : String}
    (h1 : detect_bulk_operation user_message = some action)
    (h2 : truthy confirm_token = false) :
    run_agent oracle store user_id user_message hist confirm_token fresh now mc =
      guardTurn oracle store user_id action fresh now
        [⟨"analyzing", analyzingContent user_message⟩] := by
  unfold run_agent
  rw [h1, h2]

/-- With a truthy token present in the store, run_agent is the redemption
branch. -/
theorem run_agent_eq_redeem {oracle : Oracle} {store : Store}
    {user_id user_message : String} {hist : List (String × String)}
    {confirm_token : Option String} {fresh : String} {now mc : Nat}
    {token : String} {conf : PendingConfirmation}
    (h : pendingLookup store confirm_token = some (token, conf)) :
    run_agent oracle store user_id user_message hist confirm_token fresh now mc =
      redeemTurn oracle store user_id token conf
        [⟨"analyzing", analyzingContent user_message⟩] := by
  have htr : truthy confirm_token = true := by
    match confirm_token with
    | none => simp [pendingLookup] at h
    | some t =>
        by_cases ht : t == ""
        · simp [pendingLookup, ht] at h
        · simp [truthy, ht]
  unfold run_agent
  rw [htr]
  cases hd : detect_bulk_operation user_message <;> simp [h]

/-- With no truthy token in the store and the guard branch not taken,
run_agent is the normal branch. -/
theorem run_agent_eq_normal {oracle : Oracle} {store : Store}
    {user_id user_message : String} {hist : List (String × String)}
    {confirm_token : Option String} {fresh : String} {now mc : Nat}
    (h1 : detect_bulk_operation user_message = none ∨ truthy confirm_token = true)
    (h2 : pendingLookup store confirm_token = none) :
    run_agent oracle store user_id user_message hist confirm_token fresh now mc =
      normalTurn oracle store user_message hist mc
        [⟨"analyzing", analyzingContent user_message⟩] := by
  unfold run_agent
  rcases h1 with h1 | h1
  · rw [h1]
    cases htr : truthy confirm_token <;> simp [h2]
  · rw [h1]
    cases hd : detect_bulk_operation user_message <;> simp [h2]

/-! ### Claim theorems -/

/-- C3 counterexample: detect_bulk_operation applied to the input
"delete all my tasks" returns no action, not delete_all as claimed: the
first pattern requires the quantifier word to be followed immediately by
task or todo, and the intervening "my" defeats every pattern. -/
theorem claim_C3_counterexample :
    detect_bulk_operation "delete all my tasks" ≠ some "delete_all" ∧
    detect_bulk_operation "delete all my tasks" = none := by decide

/-- C3 amended: detect_bulk_operation, applied case-insensitively with
first-matching-pattern-wins semantics, returns no action for
"delete all my tasks" (an intervening word between the quantifier and
task/todo defeats the patterns), returns delete_all for
"delete all tasks" (also case-insensitively), and returns no action for
"delete my task about groceries". -/
theorem claim_C3_amended :
    detect_bulk_operation "delete all my tasks" = none ∧
    detect_bulk_operation "delete all tasks" = some "delete_all" ∧
    detect_bulk_operation "Delete ALL tasks" = some "delete_all" ∧
    detect_bulk_operation "delete my task about groceries" = none := by decide

/-- C8: when a bulk action is detected with no confirm_token and the
pre-confirmation list call raises, run_agent assumes zero affected items
and short-circuits with the nothing-to-do response: no
confirmation_required, no token minted (the store is unchanged), no
error surfaced, and no further runtime calls beyond the failed list
call. -/
theorem claim_C8 (oracle : Oracle) (store : Store)
    (user_id user_message : String) (hist : List (String × String))
    (confirm_token : Option String) (fresh : String) (now mc : Nat)
    (action e : String)
    (h1 : detect_bulk_operation user_message = some action)
    (h2 : truthy confirm_token = false)
    (h3 : oracle .listCall = .error e) :
    (run_agent oracle store user_id user_message hist confirm_token fresh now mc).response.response =
      "You don't have any tasks to perform this action on." ∧
    (run_agent oracle store user_id user_message hist confirm_token fresh now mc).response.confirmation_required = none ∧
    (run_agent oracle store user_id user_message hist confirm_token fresh now mc).response.error = none ∧
    (run_agent oracle store user_id user_message hist confirm_token fresh now mc).store = store ∧
    (run_agent oracle store user_id user_message hist confirm_token fresh now mc).calls = [RuntimeCall.listCall] := by
  rw [run_agent_eq_guard h1 h2]
  simp [guardTurn, listEstimate, h3]

/-- C8 witness: a concrete turn in which the list call raises. -/
theorem claim_C8_witness :
    (run_agent (fun _ => Except.error "boom") [] "alice" "delete all tasks" [] none "tok" 0 20).response.response =
      "You don't have any tasks to perform this action on." ∧
    (run_agent (fun _ => Except.error "boom") [] "alice" "delete all tasks" [] none "tok" 0 20).response.confirmation_required = none ∧
    (run_agent (fun _ => Except.error "boom") [] "alice" "delete all tasks" [] none "tok" 0 20).response.error = none ∧
    (run_agent (fun _ => Except.error "boom") [] "alice" "delete all tasks" [] none "tok" 0 20).store = [] ∧
    (run_agent (fun _ => Except.error "boom") [] "alice" "delete all tasks" [] none "tok" 0 20).calls = [RuntimeCall.listCall] :=
  claim_C8 (fun _ => Except.error "boom") [] "alice" "delete all tasks" [] none
    "tok" 0 20 "delete_all" "boom" (by decide) (by decide) rfl

/-- C10: a confirm_token that is in the store but was minted for a
different user id is popped before the owner check: the turn returns the
invalid-token response with the internal mismatch error, issues no
runtime calls, and leaves the store without the token, so the original
requesting user can no longer redeem it. -/
theorem claim_C10 (oracle : Oracle) (store : Store)
    (user_id user_message : String) (hist : List (String × String))
    (token fresh : String) (now mc : Nat) (conf : PendingConfirmation)
    (h1 : lookupToken store token = some conf)
    (h2 : token ≠ "")
    (h3 : conf.user_id ≠ user_id) :
    (run_agent oracle store user_id user_message hist (some token) fresh now mc).response.response =
      "Invalid confirmation token." ∧
    (run_agent oracle store user_id user_message hist (some token) fresh now mc).response.error =
      some "Token user mismatch" ∧
    (run_agent oracle store user_id user_message hist (some token) fresh now mc).store =
      removeToken store token ∧
    lookupToken (run_agent oracle store user_id user_message hist (some token) fresh now mc).store token = none ∧
    (run_agent oracle store user_id user_message hist (some token) fresh now mc).calls = [] := by
  have hp : pendingLookup store (some token) = some (token, conf) := by
    simp [pendingLookup, h1, h2]
  rw [run_agent_eq_redeem hp]
  simp [redeemTurn, h3, lookupToken_removeToken]

/-- C10 witness: user bob supplies a token minted for alice. -/
theorem claim_C10_witness :
    (run_agent (fun _ => Except.ok "ok") [("t1", ⟨"alice", "delete_all", 0⟩)] "bob" "yes" [] (some "t1") "f" 0 20).response.response =
      "Invalid confirmation token." ∧
    (run_agent (fun _ => Except.ok "ok") [("t1", ⟨"alice", "delete_all", 0⟩)] "bob" "yes" [] (some "t1") "f" 0 20).response.error =
      some "Token user mismatch" ∧
    (run_agent (fun _ => Except.ok "ok") [("t1", ⟨"alice", "delete_all", 0⟩)] "bob" "yes" [] (some "t1") "f" 0 20).store =
      removeToken [("t1", ⟨"alice", "delete_all", 0⟩)] "t1" ∧
    lookupToken (run_agent (fun _ => Except.ok "ok") [("t1", ⟨"alice", "delete_all", 0⟩)] "bob" "yes" [] (some "t1") "f" 0 20).store "t1" = none ∧
    (run_agent (fun _ => Except.ok "ok") [("t1", ⟨"alice", "delete_all", 0⟩)] "bob" "yes" [] (some "t1") "f" 0 20).calls = [] :=
  claim_C10 (fun _ => Except.ok "ok") [("t1", ⟨"alice", "delete_all", 0⟩)] "bob" "yes" []
    "t1" "f" 0 20 ⟨"alice", "delete_all", 0⟩ rfl (by decide) (by decide)

/-- C1 counterexample: with an empty pending store, a turn supplying an
unknown confirm_token together with a bulk-requesting message is not
rejected with an invalid-confirmation outcome: it silently proceeds to
the normal execution path, invoking the runtime with the bulk-requesting
message.  The same situation arises on the second redemption of a token,
since a successful redemption removes the token from the store. -/
theorem claim_C1_counterexample :
    (run_agent (fun _ => Except.ok "Done") [] "alice" "delete all tasks" [] (some "stale") "fresh" 0 20).response.response = "Done" ∧
    (run_agent (fun _ => Except.ok "Done") [] "alice" "delete all tasks" [] (some "stale") "fresh" 0 20).response.response ≠ "Invalid confirmation token." ∧
    (run_agent (fun _ => Except.ok "Done") [] "alice" "delete all tasks" [] (some "stale") "fresh" 0 20).response.error = none ∧
    (run_agent (fun _ => Except.ok "Done") [] "alice" "delete all tasks" [] (some "stale") "fresh" 0 20).response.confirmation_required = none ∧
    (run_agent (fun _ => Except.ok "Done") [] "alice" "delete all tasks" [] (some "stale") "fresh" 0 20).calls = [RuntimeCall.normalCall "delete all tasks"] := by
  decide

/-- C1 amended: only a token present in the store but owned by another
user yields the invalid-confirmation outcome.  A non-empty confirm_token
absent from the store (never minted, or already redeemed once) is
silently ignored: the turn is exactly the normal execution branch, even
when the message requests a bulk action.  A token therefore redeems at
most once — after a same-user redemption the store no longer contains it
— but the second attempt is not rejected; it falls through to normal
execution. -/
theorem claim_C1_amended (oracle : Oracle) (store : Store)
    (user_id user_message : String) (hist : List (String × String))
    (token fresh : String) (now mc : Nat) :
    (token ≠ "" → lookupToken store token = none →
       run_agent oracle store user_id user_message hist (some token) fresh now mc =
         normalTurn oracle store user_message hist mc
           [⟨"analyzing", analyzingContent user_message⟩]) ∧
    (∀ conf, token ≠ "" → lookupToken store token = some conf → conf.user_id = user_id →
       (run_agent oracle store user_id user_message hist (some token) fresh now mc).store =
         removeToken store token ∧
       lookupToken (run_agent oracle store user_id user_message hist (some token) fresh now mc).store token = none) := by
  constructor
  · intro ht hn
    exact run_agent_eq_normal (Or.inr (by simp [truthy, ht]))
      (by simp [pendingLookup, ht, hn])
  · intro conf ht hs hu
    have hp : pendingLookup store (some token) = some (token, conf) := by
      simp [pendingLookup, hs, ht]
    rw [run_agent_eq_redeem hp]
    unfold redeemTurn
    rw [if_neg (by simp [hu])]
    cases hb : oracle (.bulkCall (bulkInstruction conf.action user_id)) <;>
      simp [hb, lookupToken_removeToken]

/-- C1 witness: a concrete unknown-token turn equal to the normal turn. -/
theorem claim_C1_witness :
    run_agent (fun _ => Except.ok "ok") [] "alice" "hello" [] (some "ghost") "f" 0 20 =
      normalTurn (fun _ => Except.ok "ok") [] "hello" [] 20
        [⟨"analyzing", analyzingContent "hello"⟩] :=
  (claim_C1_amended (fun _ => Except.ok "ok") [] "alice" "hello" [] "ghost" "f" 0 20).1
    (by decide) rfl

/-- C2 counterexample: a turn with a detected bulk action and no
confirm_token for which run_agent returns a null confirmation_required
(the list estimate reported no tasks) while also having issued one
tool-invoking runtime call (the list estimate itself), contradicting
both halves of the claim. -/
theorem claim_C2_counterexample :
    (run_agent (fun _ => Except.ok "You have no tasks yet") [] "alice" "delete all tasks" [] none "tok1" 0 20).response.confirmation_required = none ∧
    (run_agent (fun _ => Except.ok "You have no tasks yet") [] "alice" "delete all tasks" [] none "tok1" 0 20).calls = [RuntimeCall.listCall] := by
  decide

/-- C2 amended: on a detected bulk action with no truthy confirm_token,
run_agent issues exactly one runtime call — the read-only list estimate —
and never the bulk-executing or normal call, so the bulk action is not
executed.  When the estimate is non-zero it returns a non-null
confirmation_required carrying the freshly minted single-use token, which
is recorded in the pending store; when the estimate is zero (list call
failed or reported no tasks) it returns the nothing-to-do response with
no confirmation and no token minted. -/
theorem claim_C2_amended (oracle : Oracle) (store : Store)
    (user_id user_message : String) (hist : List (String × String))
    (confirm_token : Option String) (fresh : String) (now mc : Nat)
    (action : String)
    (h1 : detect_bulk_operation user_message = some action)
    (h2 : truthy confirm_token = false) :
    (run_agent oracle store user_id user_message hist confirm_token fresh now mc).calls =
      [RuntimeCall.listCall] ∧
    (listEstimate (oracle .listCall) ≠ 0 →
       (run_agent oracle store user_id user_message hist confirm_token fresh now mc).response.confirmation_required =
         some ⟨action,
           "Are you sure you want to " ++
             (if action == "delete_all" then "delete all" else "mark all as complete") ++ "?",
           [], fresh⟩ ∧
       (run_agent oracle store user_id user_message hist confirm_token fresh now mc).store =
         insertToken store fresh ⟨user_id, action, now⟩) ∧
    (listEstimate (oracle .listCall) = 0 →
       (run_agent oracle store user_id user_message hist confirm_token fresh now mc).response.confirmation_required = none ∧
       (run_agent oracle store user_id user_message hist confirm_token fresh now mc).store = store ∧
       (run_agent oracle store user_id user_message hist confirm_token fresh now mc).response.response =
         "You don't have any tasks to perform this action on.") := by
  rw [run_agent_eq_guard h1 h2]
  by_cases h : listEstimate (oracle .listCall) = 0
  · simp [guardTurn, h]
  · simp [guardTurn, h]

/-- C2 witness: a concrete guard turn with a non-zero estimate mints the
token and requests confirmation. -/
theorem claim_C2_witness :
    (run_agent (fun _ => Except.ok "1. buy milk") [] "alice" "delete all tasks" [] none "tok1" 7 20).response.confirmation_required =
      some ⟨"delete_all", "Are you sure you want to delete all?", [], "tok1"⟩ ∧
    (run_agent (fun _ => Except.ok "1. buy milk") [] "alice" "delete all tasks" [] none "tok1" 7 20).store =
      insertToken [] "tok1" ⟨"alice", "delete_all", 7⟩ := by
  have h := (claim_C2_amended (fun _ => Except.ok "1. buy milk") [] "alice"
    "delete all tasks" [] none "tok1" 7 20 "delete_all" (by decide) rfl).2.1 (by decide)
  exact ⟨by rw [h.1]; decide, h.2⟩

/-- C7 counterexample: when the runtime invocation that raises is the
confirmed bulk execution, the returned response text is the bulk-specific
failure message, not the generic error message the claim requires for
every failing runtime invocation. -/
theorem claim_C7_counterexample :
    (run_agent (fun _ => Except.error "boom") [("t1", ⟨"alice", "delete_all", 0⟩)] "alice" "yes please" [] (some "t1") "f" 0 20).response.response ≠
      "I encountered an error processing your request. Please try again." ∧
    (run_agent (fun _ => Except.error "boom") [("t1", ⟨"alice", "delete_all", 0⟩)] "alice" "yes please" [] (some "t1") "f" 0 20).response.response =
      "Failed to execute bulk operation. Please try again." ∧
    (run_agent (fun _ => Except.error "boom") [("t1", ⟨"alice", "delete_all", 0⟩)] "alice" "yes please" [] (some "t1") "f" 0 20).response.error =
      some "boom" ∧
    (run_agent (fun _ => Except.error "boom") [("t1", ⟨"alice", "delete_all", 0⟩)] "alice" "yes please" [] (some "t1") "f" 0 20).calls =
      [RuntimeCall.bulkCall (bulkInstruction "delete_all" "alice")] := by
  decide

/-- C7 amended: run_agent never propagates a runtime exception (it is a
total function into AgentResponse).  When the normal-execution invocation
raises, the turn returns the generic user-safe message with the internal
error field set and the thinking steps accumulated before the failure;
when the confirmed bulk execution raises, the response text is instead
the bulk-specific failure message, again with the error field set and the
accumulated thinking steps. -/
theorem claim_C7_amended (oracle : Oracle) (store : Store)
    (user_id user_message : String) (hist : List (String × String))
    (confirm_token : Option String) (fresh : String) (now mc : Nat)
    (e : String) :
    ((detect_bulk_operation user_message = none ∨ truthy confirm_token = true) →
     pendingLookup store confirm_token = none →
     oracle (.normalCall (normalInput user_message hist mc)) = .error e →
       (run_agent oracle store user_id user_message hist confirm_token fresh now mc).response.response =
         "I encountered an error processing your request. Please try again." ∧
       (run_agent oracle store user_id user_message hist confirm_token fresh now mc).response.error = some e ∧
       (run_agent oracle store user_id user_message hist confirm_token fresh now mc).response.thinking_steps =
         [⟨"analyzing", analyzingContent user_message⟩,
          ⟨"planning", "Connecting to MCP server and preparing agent"⟩,
          ⟨"processing", "MCP server connected, creating agent"⟩,
          ⟨"processing", "Running agent with user message"⟩] ∧
       (run_agent oracle store user_id user_message hist confirm_token fresh now mc).response.confirmation_required = none) ∧
    (∀ token conf, pendingLookup store confirm_token = some (token, conf) →
     conf.user_id = user_id →
     oracle (.bulkCall (bulkInstruction conf.action user_id)) = .error e →
       (run_agent oracle store user_id user_message hist confirm_token fresh now mc).response.response =
         "Failed to execute bulk operation. Please try again." ∧
       (run_agent oracle store user_id user_message hist confirm_token fresh now mc).response.error = some e ∧
       (run_agent oracle store user_id user_message hist confirm_token fresh now mc).response.thinking_steps =
         [⟨"analyzing", analyzingContent user_message⟩,
          ⟨"processing", "Executing confirmed bulk operation: " ++ conf.action⟩]) := by
  constructor
  · intro h1 h2 h3
    rw [run_agent_eq_normal h1 h2]
    simp [normalTurn, h3]
  · intro token conf hp hu h3
    rw [run_agent_eq_redeem hp]
    unfold redeemTurn
    rw [if_neg (by simp [hu])]
    simp [h3]

/-- C7 witness: a concrete normal turn whose runtime invocation raises. -/
theorem claim_C7_witness :
    (run_agent (fun _ => Except.error "boom") [] "alice" "hello" [] none "f" 0 20).response.response =
      "I encountered an error processing your request. Please try again." ∧
    (run_agent (fun _ => Except.error "boom") [] "alice" "hello" [] none "f" 0 20).response.error = some "boom" ∧
    (run_agent (fun _ => Except.error "boom") [] "alice" "hello" [] none "f" 0 20).response.thinking_steps =
      [⟨"analyzing", analyzingContent "hello"⟩,
       ⟨"planning", "Connecting to MCP server and preparing agent"⟩,
       ⟨"processing", "MCP server connected, creating agent"⟩,
       ⟨"processing", "Running agent with user message"⟩] ∧
    (run_agent (fun _ => Except.error "boom") [] "alice" "hello" [] none "f" 0 20).response.confirmation_required = none :=
  (claim_C7_amended (fun _ => Except.error "boom") [] "alice" "hello" [] none "f" 0 20 "boom").1
    (Or.inl (by decide)) rfl rfl

/-- Filtering after a map that preserves the predicate and fixes every
element satisfying it is filtering the original list. -/
theorem filter_map_of_eq_on {α : Type} (p : α → Bool) (f : α → α) :
    ∀ l : List α, (∀ a ∈ l, p (f a) = p a ∧ (p a = true → f a = a)) →
      List.filter p (List.map f l) = List.filter p l := by
  intro l
  induction l with
  | nil => intro _; rfl
  | cons a rest ih =>
      intro h
      have ha := h a (List.mem_cons_self _ _)
      have hrest := fun d hd => h d (List.mem_cons_of_mem _ hd)
      simp only [List.map_cons, List.filter_cons, ha.1]
      by_cases hp : p a = true
      · rw [if_pos hp, if_pos hp, ha.2 hp, ih hrest]
      · rw [if_neg hp, if_neg hp, ih hrest]

/-- Bumping updated_at on the rows with the target id leaves the rows of
user B untouched when every row with the target id belongs to A ≠ B. -/
theorem filter_userB_map_bump (l : List Conversation) (A B : String) (hAB : A ≠ B)
    (target now : Nat) (hid : ∀ c ∈ l, c.id = target → c.user_id = A) :
    (l.map (fun c => if c.id == target then { c with updated_at := now } else c)).filter
        (fun c => c.user_id == B) =
      l.filter (fun c => c.user_id == B) := by
  apply filter_map_of_eq_on
  intro c hc
  constructor
  · by_cases h : c.id == target <;> simp [h]
  · intro hpc
    by_cases h : c.id == target
    · have hcA : c.user_id = A := hid c hc (by simpa using h)
      have hcB : c.user_id = B := by simpa using hpc
      exact absurd (hcA.symm.trans hcB) hAB
    · rw [if_neg h]

/-- C6: append_message truncates content of length beyond 4000 to exactly
the first 4000 characters and stores shorter content unchanged (truncate,
never reject); the truncated message is what is inserted into the
message table. -/
theorem claim_C6 (db : DB) (conversation : Conversation) (role : String)
    (content : List Char) (now new_id : Nat) :
    ((append_message db conversation role content now new_id).1.content =
       if content.length > 4000 then content.take 4000 else content) ∧
    (4000 < content.length →
       (append_message db conversation role content now new_id).1.content.length = 4000 ∧
       (append_message db conversation role content now new_id).1.content = content.take 4000) ∧
    (content.length ≤ 4000 →
       (append_message db conversation role content now new_id).1.content = content) ∧
    (append_message db conversation role content now new_id).2.messages =
      db.messages ++ [(append_message db conversation role content now new_id).1] := by
  refine ⟨rfl, fun h => ⟨?_, ?_⟩, fun h => ?_, rfl⟩
  · simp only [append_message, if_pos h, List.length_take]
    omega
  · simp only [append_message, if_pos h]
  · simp only [append_message, if_neg (by omega : ¬ content.length > 4000)]

/-- C6 witness: appending 4001 characters stores exactly the first
4000. -/
theorem claim_C6_witness :
    (append_message ⟨[], []⟩ ⟨1, "alice", none, 0, 0⟩ "user" (List.replicate 4001 'a') 5 7).1.content.length = 4000 ∧
    (append_message ⟨[], []⟩ ⟨1, "alice", none, 0, 0⟩ "user" (List.replicate 4001 'a') 5 7).1.content =
      (List.replicate 4001 'a').take 4000 :=
  (claim_C6 ⟨[], []⟩ ⟨1, "alice", none, 0, 0⟩ "user" (List.replicate 4001 'a') 5 7).2.1
    (by rw [List.length_replicate]; omega)

/-- C9 counterexample: a fresh conversation created by
get_or_create_conversation and receiving its first user message through
append_message keeps a null title; append_message never derives a title,
so the conversation does not end with its title equal to the first 100
characters of the message. -/
theorem claim_C9_counterexample :
    ((append_message (get_or_create_conversation ⟨[], []⟩ "alice" 0 1).2
        (get_or_create_conversation ⟨[], []⟩ "alice" 0 1).1 "user"
        "Buy milk and walk the dog and also finish the quarterly report".data 1 2).2.conversations.map
      Conversation.title) = [none] ∧
    (none : Option (List Char)) ≠
      some ("Buy milk and walk the dog and also finish the quarterly report".data.take 100) := by
  decide

/-- C9 amended: append_message (conversation_service.py) leaves every
conversation title unchanged; the derivation of a title from the first
100 characters of the first user message happens only on the ChatKit
store path (add_thread_item in chatkit/store.py), which sets that title
exactly when the conversation belongs to the user, has a falsy title and
the item role is user. -/
theorem claim_C9_amended (db : DB) (conversation : Conversation)
    (role user_id : String) (content : List Char) (now new_id conv_id : Nat) :
    ((append_message db conversation role content now new_id).2.conversations.map
        Conversation.title =
       db.conversations.map Conversation.title) ∧
    (db.conversations.find? (fun c => c.id == conv_id) = some conversation →
     conversation.user_id = user_id →
     titleFalsy conversation.title = true →
       (add_thread_item_core db conv_id user_id "user" content now new_id).conversations =
         db.conversations.map (fun c =>
           if c.id == conv_id
           then { c with title := some (content.take 100), updated_at := now } else c)) := by
  constructor
  · simp only [append_message, List.map_map]
    apply List.map_congr_left
    intro c _
    simp only [Function.comp_apply]
    split <;> rfl
  · intro h1 h2 h3
    unfold add_thread_item_core
    rw [h1]
    simp only [h2, ne_eq, not_true_eq_false, if_false, ite_false]
    simp [h3]

/-- C9 witness: the ChatKit path sets the title of a fresh titleless
conversation to the first 100 characters of the first user message. -/
theorem claim_C9_witness :
    (add_thread_item_core ⟨[⟨1, "alice", none, 0, 0⟩], []⟩ 1 "alice" "user"
        "Buy milk and walk the dog and also finish the quarterly report".data 1 2).conversations =
      [⟨1, "alice",
        some ("Buy milk and walk the dog and also finish the quarterly report".data.take 100), 0, 1⟩] := by
  have h := (claim_C9_amended ⟨[⟨1, "alice", none, 0, 0⟩], []⟩ ⟨1, "alice", none, 0, 0⟩
    "user" "alice" "Buy milk and walk the dog and also finish the quarterly report".data 1 2 1).2
    rfl rfl rfl
  rw [h]
  decide

/-- C4: cross-user isolation of the conversation and message store.  For
distinct users A and B, reads issued with A only ever return rows owned
by A (and come back empty or none when the requested conversation id is
owned by B); delete_conversation issued with A leaves the rows owned by
B unchanged and reports not-found on a conversation owned by B; and
append_message through a conversation of A adds only a row owned by A,
leaving the rows of B unchanged. -/
theorem claim_C4 (db : DB) (A B : String) (hAB : A ≠ B) (cid limit : Nat) :
    (∀ m ∈ list_recent_messages db cid A limit, m.user_id = A) ∧
    (∀ m ∈ get_full_history db cid A, m.user_id = A) ∧
    (∀ c, get_conversation_by_id db cid A = some c → c.user_id = A) ∧
    ((∀ c ∈ db.conversations, c.id = cid → c.user_id = B) →
       get_conversation_by_id db cid A = none) ∧
    ((∀ m ∈ db.messages, m.conversation_id = cid → m.user_id = B) →
       list_recent_messages db cid A limit = [] ∧ get_full_history db cid A = []) ∧
    ((delete_conversation db cid A).2.conversations.filter (fun c => c.user_id == B) =
       db.conversations.filter (fun c => c.user_id == B)) ∧
    ((delete_conversation db cid A).2.messages.filter (fun m => m.user_id == B) =
       db.messages.filter (fun m => m.user_id == B)) ∧
    ((∀ c ∈ db.conversations, c.id = cid → c.user_id = B) →
       (delete_conversation db cid A).1 = false) ∧
    (∀ conversation role content now new_id, conversation.user_id = A →
       ((append_message db conversation role content now new_id).2.messages.filter
           (fun m => m.user_id == B) =
         db.messages.filter (fun m => m.user_id == B)) ∧
       ((∀ c ∈ db.conversations, c.id = conversation.id → c.user_id = A) →
         (append_message db conversation role content now new_id).2.conversations.filter
             (fun c => c.user_id == B) =
           db.conversations.filter (fun c => c.user_id == B))) := by
  refine ⟨?_, ?_, ?_, ?_, ?_, ?_, ?_, ?_, ?_⟩
  · intro m hm
    unfold list_recent_messages at hm
    rw [List.mem_reverse] at hm
    have hm2 := (List.take_sublist _ _).subset hm
    have hm3 := (List.perm_insertionSort newestFirst _).subset hm2
    have hp := List.of_mem_filter hm3
    simp only [Bool.and_eq_true, beq_iff_eq] at hp
    exact hp.2
  · intro m hm
    unfold get_full_history at hm
    have hm3 := (List.perm_insertionSort oldestFirst _).subset hm
    have hp := List.of_mem_filter hm3
    simp only [Bool.and_eq_true, beq_iff_eq] at hp
    exact hp.2
  · intro c hc
    unfold get_conversation_by_id at hc
    have hp := List.find?_some hc
    simp only [Bool.and_eq_true, beq_iff_eq] at hp
    exact hp.2
  · intro hB
    unfold get_conversation_by_id
    rw [List.find?_eq_none]
    intro c hc hpc
    simp only [Bool.and_eq_true, beq_iff_eq] at hpc
    exact hAB (hpc.2.symm.trans (hB c hc hpc.1))
  · intro hB
    have hfil : db.messages.filter
        (fun m => m.conversation_id == cid && m.user_id == A) = [] := by
      rw [List.filter_eq_nil_iff]
      intro m hm hpm
      simp only [Bool.and_eq_true, beq_iff_eq] at hpm
      exact hAB (hpm.2.symm.trans (hB m hm hpm.1))
    constructor
    · unfold list_recent_messages
      rw [hfil]
      simp [List.insertionSort]
    · unfold get_full_history
      rw [hfil]
      rfl
  · simp only [delete_conversation]
    rw [List.filter_filter]
    apply List.filter_congr
    intro c _
    by_cases h : c.user_id = B
    · simp [h, Ne.symm hAB]
    · simp [h]
  · simp only [delete_conversation]
    rw [List.filter_filter]
    apply List.filter_congr
    intro m _
    by_cases h : m.user_id = B
    · simp [h, Ne.symm hAB]
    · simp [h]
  · intro hB
    simp only [delete_conversation]
    rw [List.any_eq_false]
    intro c hc hpc
    simp only [Bool.and_eq_true, beq_iff_eq] at hpc
    exact hAB (hpc.2.symm.trans (hB c hc hpc.1))
  · intro conversation role content now new_id hconv
    constructor
    · rw [show (append_message db conversation role content now new_id).2.messages =
            db.messages ++ [(append_message db conversation role content now new_id).1] from rfl]
      rw [List.filter_append]
      have huser : (append_message db conversation role content now new_id).1.user_id = A := hconv
      simp [huser, hAB]
    · intro hid
      rw [show (append_message db conversation role content now new_id).2.conversations =
            db.conversations.map (fun c =>
              if c.id == conversation.id then { c with updated_at := now } else c) from rfl]
      exact filter_userB_map_bump db.conversations A B hAB conversation.id now hid

/-- C4 witness: a database holding only data of user bob is invisible to
and undeletable by user alice. -/
theorem claim_C4_witness :
    get_conversation_by_id ⟨[⟨1, "bob", none, 0, 0⟩], [⟨1, 1, "bob", "user", [], 0⟩]⟩ 1 "alice" = none ∧
    (delete_conversation ⟨[⟨1, "bob", none, 0, 0⟩], [⟨1, 1, "bob", "user", [], 0⟩]⟩ 1 "alice").1 = false ∧
    list_recent_messages ⟨[⟨1, "bob", none, 0, 0⟩], [⟨1, 1, "bob", "user", [], 0⟩]⟩ 1 "alice" 20 = [] := by
  refine ⟨?_, ?_, ?_⟩
  · exact (claim_C4 ⟨[⟨1, "bob", none, 0, 0⟩], [⟨1, 1, "bob", "user", [], 0⟩]⟩ "alice" "bob"
      (by decide) 1 20).2.2.2.1 (by decide)
  · exact (claim_C4 ⟨[⟨1, "bob", none, 0, 0⟩], [⟨1, 1, "bob", "user", [], 0⟩]⟩ "alice" "bob"
      (by decide) 1 20).2.2.2.2.2.2.2.1 (by decide)
  · exact ((claim_C4 ⟨[⟨1, "bob", none, 0, 0⟩], [⟨1, 1, "bob", "user", [], 0⟩]⟩ "alice" "bob"
      (by decide) 1 20).2.2.2.2.1 (by decide)).1

/-- C5: given pairwise distinct message ids (a database invariant), when
a conversation holds more than limit matching messages,
list_recent_messages returns exactly limit messages; the returned list is
always strictly increasing in (created_at, id) — chronological order
obtained by taking the newest limit messages newest-first and reversing —
and an empty match yields the empty list. -/
theorem claim_C5 (db : DB) (cid : Nat) (uid : String) (limit : Nat)
    (hids : db.messages.Pairwise (fun m1 m2 => m1.id ≠ m2.id)) :
    (limit < (db.messages.filter
        (fun m => m.conversation_id == cid && m.user_id == uid)).length →
       (list_recent_messages db cid uid limit).length = limit) ∧
    List.Pairwise chronLT (list_recent_messages db cid uid limit) ∧
    (db.messages.filter (fun m => m.conversation_id == cid && m.user_id == uid) = [] →
       list_recent_messages db cid uid limit = []) := by
  refine ⟨?_, ?_, ?_⟩
  · intro h
    unfold list_recent_messages
    rw [List.length_reverse, List.length_take, List.length_insertionSort]
    omega
  · unfold list_recent_messages
    rw [List.pairwise_reverse]
    have hsorted : List.Pairwise newestFirst
        (List.insertionSort newestFirst (db.messages.filter
          (fun m => m.conversation_id == cid && m.user_id == uid))) :=
      List.sorted_insertionSort newestFirst _
    have hne : (db.messages.filter
        (fun m => m.conversation_id == cid && m.user_id == uid)).Pairwise
          (fun m1 m2 => m1.id ≠ m2.id) :=
      List.Pairwise.sublist (List.filter_sublist _) hids
    have hne2 := (List.Perm.pairwise_iff (fun h => Ne.symm h)
      (List.perm_insertionSort newestFirst _)).mpr hne
    have hstrict : List.Pairwise (fun a b => chronLT b a)
        (List.insertionSort newestFirst (db.messages.filter
          (fun m => m.conversation_id == cid && m.user_id == uid))) := by
      refine (hsorted.and hne2).imp ?_
      intro a b hab
      rcases hab with ⟨hr, hne3⟩
      unfold newestFirst at hr
      unfold chronLT
      omega
    exact List.Pairwise.sublist (List.take_sublist _ _) hstrict
  · intro h
    unfold list_recent_messages
    rw [h]
    simp [List.insertionSort]

/-- C5 witness: three stored messages, limit two: the two newest come
back in chronological order. -/
theorem claim_C5_witness :
    ((2 : Nat) < ((⟨[], [⟨1, 7, "alice", "user", [], 10⟩, ⟨2, 7, "alice", "assistant", [], 20⟩,
        ⟨3, 7, "alice", "user", [], 30⟩]⟩ : DB).messages.filter
        (fun m => m.conversation_id == 7 && m.user_id == "alice")).length →
      (list_recent_messages ⟨[], [⟨1, 7, "alice", "user", [], 10⟩, ⟨2, 7, "alice", "assistant", [], 20⟩,
        ⟨3, 7, "alice", "user", [], 30⟩]⟩ 7 "alice" 2).length = 2) ∧
    List.Pairwise chronLT (list_recent_messages ⟨[], [⟨1, 7, "alice", "user", [], 10⟩,
      ⟨2, 7, "alice", "assistant", [], 20⟩, ⟨3, 7, "alice", "user", [], 30⟩]⟩ 7 "alice" 2) ∧
    (((⟨[], [⟨1, 7, "alice", "user", [], 10⟩, ⟨2, 7, "alice", "assistant", [], 20⟩,
        ⟨3, 7, "alice", "user", [], 30⟩]⟩ : DB).messages.filter
        (fun m => m.conversation_id == 7 && m.user_id == "alice")) = [] →
      list_recent_messages ⟨[], [⟨1, 7, "alice", "user", [], 10⟩, ⟨2, 7, "alice", "assistant", [], 20⟩,
        ⟨3, 7, "alice", "user", [], 30⟩]⟩ 7 "alice" 2 = []) :=
  claim_C5 ⟨[], [⟨1, 7, "alice", "user", [], 10⟩, ⟨2, 7, "alice", "assistant", [], 20⟩,
    ⟨3, 7, "alice", "user", [], 30⟩]⟩ 7 "alice" 2 (by decide)

end TodoSpec
